import Mathlib

/-!
ESP32-S2 port of the TinyUSB Arduino glue

A shallow embedding of `src/arduino/ports/esp32/Adafruit_TinyUSB_esp32.cpp`.

* The two file-static variables (`usb_persist_enabled`, `usb_persist_mode`) form the
  explicit state `PortState`.
* Every call into the vendor SDK, every register macro and every store to a file-static
  variable is recorded, in program order, as an `Effect`; a function of the file is
  embedded as a function returning the list of effects it performs (and the new state).
* Constants, tables and types that come from vendor headers are collected in `Sdk` and
  are parameters of the embedding.
-/

namespace TinyUSBEsp32

/-! ## Data model -/

/-- The enumeration `restart_type_t` (lines 74-80). -/
inductive restart_type_t
  | RESTART_NO_PERSIST
  | RESTART_PERSIST
  | RESTART_BOOTLOADER
  | RESTART_BOOTLOADER_DFU
  | RESTART_TYPE_MAX
  deriving DecidableEq, Repr

/-- The file-static variables of lines 82-83. -/
structure PortState where
  usb_persist_enabled : Bool
  usb_persist_mode : restart_type_t
  deriving DecidableEq, Repr

/-- The static initialisers: `usb_persist_enabled = false`,
`usb_persist_mode = RESTART_NO_PERSIST`. -/
def PortState.initial : PortState :=
  { usb_persist_enabled := false, usb_persist_mode := restart_type_t.RESTART_NO_PERSIST }

/-- Named flag constants handed to `chip_usb_set_persist_flags`. -/
inductive usbdc_flag
  | USBDC_PERSIST_ENA
  | USBDC_BOOT_DFU
  deriving DecidableEq, Repr

/-- Peripheral module names used by the file. -/
inductive periph_module_t
  | PERIPH_USB_MODULE
  deriving DecidableEq, Repr

/-- Register names used by the file. -/
inductive Reg
  | RTC_CNTL_OPTION1_REG
  | RTC_CNTL_USB_CONF_REG
  deriving DecidableEq, Repr

/-- Register bit / value names used by the file. -/
inductive RegBits
  | RTC_CNTL_FORCE_DOWNLOAD_BOOT
  | RTC_CNTL_IO_MUX_RESET_DISABLE
  | RTC_CNTL_USB_RESET_DISABLE
  deriving DecidableEq, Repr

/-- Drive strengths used by the file. -/
inductive gpio_drive_cap_t
  | GPIO_DRIVE_CAP_3
  deriving DecidableEq, Repr

/-- Functions of the file whose address is handed to the SDK. -/
inductive FnPtr
  | usb_persist_shutdown_handler
  | usb_device_task
  deriving DecidableEq, Repr

/-- Record type `usb_iopin_dsc_t` of the vendor header `soc/usb_periph.h`; only the four
fields the file reads. -/
structure usb_iopin_dsc_t where
  pin : Int
  func : Int
  is_output : Bool
  ext_phy_only : Int
  deriving DecidableEq, Repr

/-- Record type `usb_hal_context_t` of the vendor header `hal/usb_hal.h`. -/
structure usb_hal_context_t where
  use_external_phy : Bool
  deriving DecidableEq, Repr

/-- One observable action: a call into the SDK / ROM / RTOS, a register macro, or a store
to a file-static variable.  Arguments are the values of the argument expressions at the
call site (`NULL` arguments of `xTaskCreate` are omitted).  `PIN_INPUT_ENABLE` is always
applied to `GPIO_PIN_MUX_REG[pin]`; the effect records the index `pin`, the vendor array
itself is not modelled. -/
inductive Effect
  | usb_dc_prepare_persist
  | chip_usb_set_persist_flags (flags : usbdc_flag)
  | periph_module_reset (m : periph_module_t)
  | periph_module_enable (m : periph_module_t)
  | REG_WRITE (r : Reg) (v : RegBits)
  | REG_CLR_BIT (r : Reg) (b : RegBits)
  | esp_rom_gpio_pad_select_gpio (pin : Int)
  | esp_rom_gpio_connect_out_signal (pin func : Int) (out_inv oen_inv : Bool)
  | esp_rom_gpio_connect_in_signal (pin func : Int) (inv : Bool)
  | PIN_INPUT_ENABLE_GPIO_PIN_MUX_REG (pin : Int)
  | esp_rom_gpio_pad_unhold (pin : Int)
  | gpio_set_drive_capability (gpio_num : Int) (strength : gpio_drive_cap_t)
  | esp_register_shutdown_handler (handler : FnPtr)
  | usb_hal_init (use_external_phy : Bool)
  | tusb_init
  | xTaskCreate (entry : FnPtr) (name : String) (stackDepth : Nat) (priority : Int)
  | store_usb_persist_mode (m : restart_type_t)
  | esp_restart
  | TinyUSB_Device_FlushCDC
  | vPortYield
  deriving DecidableEq, Repr

/-- What the vendor headers provide and the file only uses: the pin descriptor table
`usb_periph_iopins` (as the sequence of records stored from its first element on), the
constants compared or passed by value, and the way `usb_hal_init` leaves the context it
receives by pointer. -/
structure Sdk where
  usb_periph_iopins : List usb_iopin_dsc_t
  GPIO_FUNC_IN_LOW : Int
  GPIO_FUNC_IN_HIGH : Int
  USBPHY_DM_NUM : Int
  USBPHY_DP_NUM : Int
  configMAX_PRIORITIES : Int
  USBDC_PERSIST_ENA : Nat
  usb_hal_init : usb_hal_context_t → usb_hal_context_t

/-- The hardware state read by the file (apart from the eFuse MAC fields):
`USB_WRAP.date.val`. -/
structure Hw where
  USB_WRAP_date_val : Nat
  deriving DecidableEq, Repr

/-! ## `usb_persist_shutdown_handler` (lines 85-109) -/

/-- The shutdown handler; it reads both static variables and writes none. -/
def usb_persist_shutdown_handler (s : PortState) : List Effect :=
  if s.usb_persist_mode ≠ restart_type_t.RESTART_NO_PERSIST then
    (if s.usb_persist_enabled then [Effect.usb_dc_prepare_persist] else []) ++
    (if s.usb_persist_mode = restart_type_t.RESTART_BOOTLOADER then
      (if s.usb_persist_enabled then
        [Effect.chip_usb_set_persist_flags usbdc_flag.USBDC_PERSIST_ENA]
      else
        [Effect.periph_module_reset periph_module_t.PERIPH_USB_MODULE,
         Effect.periph_module_enable periph_module_t.PERIPH_USB_MODULE]) ++
      [Effect.REG_WRITE Reg.RTC_CNTL_OPTION1_REG RegBits.RTC_CNTL_FORCE_DOWNLOAD_BOOT]
    else if s.usb_persist_mode = restart_type_t.RESTART_BOOTLOADER_DFU then
      [Effect.chip_usb_set_persist_flags usbdc_flag.USBDC_BOOT_DFU,
       Effect.REG_WRITE Reg.RTC_CNTL_OPTION1_REG RegBits.RTC_CNTL_FORCE_DOWNLOAD_BOOT]
    else if s.usb_persist_enabled then
      [Effect.chip_usb_set_persist_flags usbdc_flag.USBDC_PERSIST_ENA]
    else [])
  else []

/-! ## `configure_pins` (lines 111-133) -/

/-- The body of the `for` loop (lines 114-127) for one descriptor. -/
def configure_pins_body (sdk : Sdk) (usb : usb_hal_context_t) (iopin : usb_iopin_dsc_t) :
    List Effect :=
  if usb.use_external_phy ∨ iopin.ext_phy_only = 0 then
    [Effect.esp_rom_gpio_pad_select_gpio iopin.pin] ++
    (if iopin.is_output then
      [Effect.esp_rom_gpio_connect_out_signal iopin.pin iopin.func false false]
    else
      [Effect.esp_rom_gpio_connect_in_signal iopin.pin iopin.func false] ++
      (if iopin.pin ≠ sdk.GPIO_FUNC_IN_LOW ∧ iopin.pin ≠ sdk.GPIO_FUNC_IN_HIGH then
        [Effect.PIN_INPUT_ENABLE_GPIO_PIN_MUX_REG iopin.pin]
      else [])) ++
    [Effect.esp_rom_gpio_pad_unhold iopin.pin]
  else []

/-- The `for` loop of line 113 over the records stored from `iopin` on.  Running off the
end of the stored records without meeting `pin == -1` is a read outside the array: no
result. -/
def configure_pins_loop (sdk : Sdk) (usb : usb_hal_context_t) :
    List usb_iopin_dsc_t → Option (List Effect)
  | [] => none
  | iopin :: rest =>
    if iopin.pin ≠ -1 then
      (configure_pins_loop sdk usb rest).map (fun t => configure_pins_body sdk usb iopin ++ t)
    else some []

/-- The function `configure_pins`: the loop from `usb_periph_iopins` on, then the
drive-strength setting of lines 129-132. -/
def configure_pins (sdk : Sdk) (usb : usb_hal_context_t) : Option (List Effect) :=
  (configure_pins_loop sdk usb sdk.usb_periph_iopins).map (fun t => t ++
    (if ¬ usb.use_external_phy then
      [Effect.gpio_set_drive_capability sdk.USBPHY_DM_NUM gpio_drive_cap_t.GPIO_DRIVE_CAP_3,
       Effect.gpio_set_drive_capability sdk.USBPHY_DP_NUM gpio_drive_cap_t.GPIO_DRIVE_CAP_3]
    else []))

/-! ## Porting API (lines 139-201) -/

/-- The macro `USBD_STACK_SZ`. -/
def USBD_STACK_SZ : Nat := 4096

/-- The function `TinyUSB_Port_InitDevice`; `rhport` is ignored (`(void)rhport`). -/
def TinyUSB_Port_InitDevice (sdk : Sdk) (hw : Hw) (s : PortState) (rhport : Nat) :
    Option (PortState × List Effect) :=
  let _ := rhport
  let usb_did_persist : Bool := decide (hw.USB_WRAP_date_val = sdk.USBDC_PERSIST_ENA)
  let t1 := [Effect.REG_CLR_BIT Reg.RTC_CNTL_USB_CONF_REG RegBits.RTC_CNTL_IO_MUX_RESET_DISABLE,
             Effect.REG_CLR_BIT Reg.RTC_CNTL_USB_CONF_REG RegBits.RTC_CNTL_USB_RESET_DISABLE]
  let t2 := if (!usb_did_persist) || (!s.usb_persist_enabled) then
              [Effect.periph_module_reset periph_module_t.PERIPH_USB_MODULE,
               Effect.periph_module_enable periph_module_t.PERIPH_USB_MODULE]
            else []
  let t3 := [Effect.esp_register_shutdown_handler FnPtr.usb_persist_shutdown_handler]
  let hal : usb_hal_context_t := { use_external_phy := false }
  let t4 := [Effect.usb_hal_init hal.use_external_phy]
  let hal1 := sdk.usb_hal_init hal
  match configure_pins sdk hal1 with
  | none => none
  | some t5 =>
    some (s, t1 ++ t2 ++ t3 ++ t4 ++ t5 ++
      [Effect.tusb_init,
       Effect.xTaskCreate FnPtr.usb_device_task "usbd" USBD_STACK_SZ
         (sdk.configMAX_PRIORITIES - 1)])

/-- The function `TinyUSB_Port_EnterDFU`: the store to `usb_persist_mode`, then
`esp_restart()`. -/
def TinyUSB_Port_EnterDFU (s : PortState) : PortState × List Effect :=
  let s1 := { s with usb_persist_mode := restart_type_t.RESTART_BOOTLOADER }
  (s1, [Effect.store_usb_persist_mode restart_type_t.RESTART_BOOTLOADER, Effect.esp_restart])

/-- The builtin `__builtin_bswap32` on a 32-bit value. -/
def bswap32 (x : Nat) : Nat :=
  (x % 256) * 2 ^ 24 + (x / 2 ^ 8 % 256) * 2 ^ 16 + (x / 2 ^ 16 % 256) * 2 ^ 8 + x / 2 ^ 24 % 256

/-- The builtin `__builtin_bswap16` on a 16-bit value. -/
def bswap16 (x : Nat) : Nat :=
  (x % 256) * 2 ^ 8 + x / 2 ^ 8 % 256

/-- The `n` bytes of the object representation of the unsigned value `v` on the
little-endian target, lowest address first. -/
def le_bytes : Nat → Nat → List Nat
  | 0, _ => []
  | n + 1, v => (v % 256) :: le_bytes n (v / 256)

/-- The library function `memcpy(dst + off, src, n)` on a byte buffer `dst`. -/
def memcpy (dst : List Nat) (off : Nat) (src : List Nat) : Nat → List Nat
  | 0 => dst
  | n + 1 => (memcpy dst off src n).set (off + n) (src.getD n 0)

/-- The function `TinyUSB_Port_GetSerialNumber`.  `EFUSE_MAC_0` and `EFUSE_MAC_1` are the
values `REG_GET_FIELD` yields for the two eFuse fields; the result is the buffer after
the call and the returned `uint8_t`. -/
def TinyUSB_Port_GetSerialNumber (EFUSE_MAC_0 EFUSE_MAC_1 : Nat) (serial_id : List Nat) :
    List Nat × Nat :=
  let mac0 := bswap32 (EFUSE_MAC_0 % 2 ^ 32)
  let mac1 := bswap16 (EFUSE_MAC_1 % 2 ^ 16)
  let serial_id := memcpy serial_id 0 (le_bytes 2 mac1) 2
  let serial_id := memcpy serial_id 2 (le_bytes 4 mac0) 4
  (serial_id, 6)

/-- The function `yield`. -/
def yield (s : PortState) : PortState × List Effect :=
  (s, [Effect.TinyUSB_Device_FlushCDC, Effect.vPortYield])


/-! ## The state machine over the two static variables -/

/-- The operations that can run: the four functions with external linkage and the shutdown
handler (invoked by the SDK once registered). -/
inductive Op
  | InitDevice (hw : Hw) (rhport : Nat)
  | EnterDFU
  | GetSerialNumber (EFUSE_MAC_0 EFUSE_MAC_1 : Nat) (serial_id : List Nat)
  | yield
  | shutdown_handler

/-- Effect of one operation on the static variables.  `TinyUSB_Port_GetSerialNumber` and
the shutdown handler never store to them. -/
def step (sdk : Sdk) (s : PortState) : Op → Option PortState
  | Op.InitDevice hw rhport => (TinyUSB_Port_InitDevice sdk hw s rhport).map Prod.fst
  | Op.EnterDFU => some (TinyUSB_Port_EnterDFU s).1
  | Op.GetSerialNumber _ _ _ => some s
  | Op.yield => some (yield s).1
  | Op.shutdown_handler => some s

/-- States reachable from the static initialisers by any sequence of operations. -/
inductive Reachable (sdk : Sdk) : PortState → Prop
  | initial : Reachable sdk PortState.initial
  | next {s s1 : PortState} (op : Op) :
      Reachable sdk s → step sdk s op = some s1 → Reachable sdk s1

/-! ## Vocabulary used in the statements -/

/-- The table holds an end marker: some record has `pin == -1`. -/
def has_sentinel (table : List usb_iopin_dsc_t) : Prop :=
  ∃ d ∈ table, d.pin = -1

instance (table : List usb_iopin_dsc_t) : Decidable (has_sentinel table) := by
  unfold has_sentinel
  infer_instance

/-- Effects that act on a GPIO pad or signal: the only ones `configure_pins` performs. -/
def Effect.is_pin_effect : Effect → Bool
  | Effect.esp_rom_gpio_pad_select_gpio _ => true
  | Effect.esp_rom_gpio_connect_out_signal _ _ _ _ => true
  | Effect.esp_rom_gpio_connect_in_signal _ _ _ => true
  | Effect.PIN_INPUT_ENABLE_GPIO_PIN_MUX_REG _ => true
  | Effect.esp_rom_gpio_pad_unhold _ => true
  | Effect.gpio_set_drive_capability _ _ => true
  | _ => false

/-- Recogniser of `xTaskCreate` calls. -/
def Effect.is_xTaskCreate : Effect → Bool
  | Effect.xTaskCreate _ _ _ _ => true
  | _ => false

/-- Eligibility of a descriptor as the specification words it: the external PHY is in use
or the descriptor is not for the external PHY only. -/
def spec_eligible (usb : usb_hal_context_t) (d : usb_iopin_dsc_t) : Bool :=
  usb.use_external_phy || decide (d.ext_phy_only = 0)

/-- Configuration of one pin as the specification words it: pad select, then connect-out
when `is_output` is set and connect-in otherwise, then pad unhold; between connect-in and
unhold the source also enables the input of a pin that is neither `GPIO_FUNC_IN_LOW` nor
`GPIO_FUNC_IN_HIGH`. -/
def spec_pin_setup (sdk : Sdk) (d : usb_iopin_dsc_t) : List Effect :=
  [Effect.esp_rom_gpio_pad_select_gpio d.pin,
   (if d.is_output then Effect.esp_rom_gpio_connect_out_signal d.pin d.func false false
    else Effect.esp_rom_gpio_connect_in_signal d.pin d.func false)] ++
  (if d.is_output = false ∧ d.pin ≠ sdk.GPIO_FUNC_IN_LOW ∧ d.pin ≠ sdk.GPIO_FUNC_IN_HIGH then
    [Effect.PIN_INPUT_ENABLE_GPIO_PIN_MUX_REG d.pin]
   else []) ++
  [Effect.esp_rom_gpio_pad_unhold d.pin]

/-- The number a byte sequence denotes when read most significant byte first. -/
def be_value (bytes : List Nat) : Nat :=
  bytes.foldl (fun acc b => acc * 256 + b) 0

/-- A sample of the vendor data on which the definitions can be evaluated: two pins that
need the external PHY, three that do not (two inputs, one of them a constant-level
source, and one output), the end marker, and a record stored behind the end marker. -/
def sampleSdk : Sdk :=
  { usb_periph_iopins :=
      [{ pin := 33, func := 61, is_output := false, ext_phy_only := 1 },
       { pin := 36, func := 64, is_output := true, ext_phy_only := 1 },
       { pin := 56, func := 58, is_output := false, ext_phy_only := 0 },
       { pin := 5, func := 60, is_output := false, ext_phy_only := 0 },
       { pin := 6, func := 62, is_output := true, ext_phy_only := 0 },
       { pin := -1, func := -1, is_output := false, ext_phy_only := 0 },
       { pin := 9, func := 9, is_output := true, ext_phy_only := 0 }]
    GPIO_FUNC_IN_LOW := 60
    GPIO_FUNC_IN_HIGH := 56
    USBPHY_DM_NUM := 19
    USBPHY_DP_NUM := 20
    configMAX_PRIORITIES := 25
    USBDC_PERSIST_ENA := 2 ^ 31
    usb_hal_init := fun hal => hal }

/-! ## Auxiliary facts -/

theorem list_of_length_16 (l : List Nat) (h : l.length = 16) :
    ∃ b0 b1 b2 b3 b4 b5 b6 b7 b8 b9 b10 b11 b12 b13 b14 b15,
      l = [b0, b1, b2, b3, b4, b5, b6, b7, b8, b9, b10, b11, b12, b13, b14, b15] := by
  match l, h with
  | [b0, b1, b2, b3, b4, b5, b6, b7, b8, b9, b10, b11, b12, b13, b14, b15], _ =>
    exact ⟨b0, b1, b2, b3, b4, b5, b6, b7, b8, b9, b10, b11, b12, b13, b14, b15, rfl⟩

theorem bswap16_bytes (x : Nat) :
    bswap16 x % 256 = x / 2 ^ 8 % 256 ∧ bswap16 x / 256 % 256 = x % 256 := by
  unfold bswap16
  have ha : x % 256 < 256 := Nat.mod_lt _ (by norm_num)
  have hb : x / 2 ^ 8 % 256 < 256 := Nat.mod_lt _ (by norm_num)
  generalize x % 256 = a at *
  generalize x / 2 ^ 8 % 256 = b at *
  constructor <;> omega

theorem bswap32_bytes (x : Nat) :
    bswap32 x % 256 = x / 2 ^ 24 % 256 ∧ bswap32 x / 256 % 256 = x / 2 ^ 16 % 256 ∧
    bswap32 x / 256 / 256 % 256 = x / 2 ^ 8 % 256 ∧
    bswap32 x / 256 / 256 / 256 % 256 = x % 256 := by
  unfold bswap32
  have ha : x % 256 < 256 := Nat.mod_lt _ (by norm_num)
  have hb : x / 2 ^ 8 % 256 < 256 := Nat.mod_lt _ (by norm_num)
  have hc : x / 2 ^ 16 % 256 < 256 := Nat.mod_lt _ (by norm_num)
  have hd : x / 2 ^ 24 % 256 < 256 := Nat.mod_lt _ (by norm_num)
  generalize x % 256 = a at *
  generalize x / 2 ^ 8 % 256 = b at *
  generalize x / 2 ^ 16 % 256 = c at *
  generalize x / 2 ^ 24 % 256 = d at *
  refine ⟨?_, ?_, ?_, ?_⟩ <;> omega

/-- The buffer after the call, for any register contents: six computed bytes followed by
the old bytes 6 to 15. -/
theorem serial_buffer (e0 e1 : Nat) (buf : List Nat) (hb : buf.length = 16) :
    (TinyUSB_Port_GetSerialNumber e0 e1 buf).1 =
      [(e1 % 2 ^ 16) / 2 ^ 8 % 256, (e1 % 2 ^ 16) % 256,
       (e0 % 2 ^ 32) / 2 ^ 24 % 256, (e0 % 2 ^ 32) / 2 ^ 16 % 256,
       (e0 % 2 ^ 32) / 2 ^ 8 % 256, (e0 % 2 ^ 32) % 256] ++ buf.drop 6 := by
  obtain ⟨b0, b1, b2, b3, b4, b5, b6, b7, b8, b9, b10, b11, b12, b13, b14, b15, rfl⟩ :=
    list_of_length_16 buf hb
  obtain ⟨h1, h2⟩ := bswap16_bytes (e1 % 2 ^ 16)
  obtain ⟨h3, h4, h5, h6⟩ := bswap32_bytes (e0 % 2 ^ 32)
  norm_num at h1 h2 h3 h4 h5 h6
  simp [TinyUSB_Port_GetSerialNumber, memcpy, le_bytes, h1, h2, h3, h4, h5, h6]
  constructor <;> omega

/-- With in-range field values the six bytes are the bytes of the fields themselves. -/
theorem serial_first_six (mac0 mac1 : Nat) (buf : List Nat)
    (h0 : mac0 < 2 ^ 32) (h1 : mac1 < 2 ^ 16) (hb : buf.length = 16) :
    (TinyUSB_Port_GetSerialNumber mac0 mac1 buf).1.take 6 =
      [mac1 / 2 ^ 8 % 256, mac1 % 256, mac0 / 2 ^ 24 % 256, mac0 / 2 ^ 16 % 256,
       mac0 / 2 ^ 8 % 256, mac0 % 256] := by
  rw [serial_buffer mac0 mac1 buf hb, Nat.mod_eq_of_lt h0, Nat.mod_eq_of_lt h1]
  simp

theorem be_value_serial (mac0 mac1 : Nat) (buf : List Nat)
    (h0 : mac0 < 2 ^ 32) (h1 : mac1 < 2 ^ 16) (hb : buf.length = 16) :
    be_value ((TinyUSB_Port_GetSerialNumber mac0 mac1 buf).1.take 6) = mac1 * 2 ^ 32 + mac0 := by
  rw [serial_first_six mac0 mac1 buf h0 h1 hb]
  simp only [be_value, List.foldl]
  norm_num at *
  omega

theorem configure_pins_loop_eq (sdk : Sdk) (usb : usb_hal_context_t)
    (table : List usb_iopin_dsc_t) (h : has_sentinel table) :
    configure_pins_loop sdk usb table =
      some ((table.takeWhile (fun d => decide (d.pin ≠ -1))).flatMap
        (configure_pins_body sdk usb)) := by
  induction table with
  | nil => obtain ⟨d, hd, _⟩ := h; simp at hd
  | cons x rest ih =>
    by_cases hx : x.pin = -1
    · simp [configure_pins_loop, hx]
    · have hrest : has_sentinel rest := by
        obtain ⟨d, hd, hp⟩ := h
        rcases List.mem_cons.1 hd with rfl | hd
        · exact absurd hp hx
        · exact ⟨d, hd, hp⟩
      simp [configure_pins_loop, hx, ih hrest]

theorem flatMap_body_eq (sdk : Sdk) (usb : usb_hal_context_t) (l : List usb_iopin_dsc_t) :
    l.flatMap (configure_pins_body sdk usb) =
      (l.filter (spec_eligible usb)).flatMap (spec_pin_setup sdk) := by
  induction l with
  | nil => rfl
  | cons x rest ih =>
    rw [List.flatMap_cons, ih]
    by_cases he : spec_eligible usb x = true
    · rw [List.filter_cons_of_pos he, List.flatMap_cons]
      congr 1
      simp only [spec_eligible, Bool.or_eq_true, decide_eq_true_eq] at he
      cases hout : x.is_output <;>
        by_cases hl : x.pin = sdk.GPIO_FUNC_IN_LOW <;>
        by_cases hh : x.pin = sdk.GPIO_FUNC_IN_HIGH <;>
        simp [configure_pins_body, spec_pin_setup, he, hout, hl, hh]
    · rw [List.filter_cons_of_neg he]
      simp only [spec_eligible, Bool.or_eq_true, decide_eq_true_eq] at he
      simp [configure_pins_body, he]

theorem configure_pins_loop_pin_effects (sdk : Sdk) (usb : usb_hal_context_t) :
    ∀ (table : List usb_iopin_dsc_t) (t : List Effect),
      configure_pins_loop sdk usb table = some t → ∀ e ∈ t, e.is_pin_effect = true := by
  intro table
  induction table with
  | nil => intro t h; simp [configure_pins_loop] at h
  | cons x rest ih =>
    intro t h e he
    by_cases hx : x.pin = -1
    · simp [configure_pins_loop, hx] at h
      subst h
      simp at he
    · simp only [configure_pins_loop, ne_eq, hx, not_false_eq_true, if_true, Option.map_eq_some'] at h
      obtain ⟨t1, ht1, rfl⟩ := h
      rcases List.mem_append.1 he with hb | ht
      · unfold configure_pins_body at hb
        split at hb
        · split at hb
          · simp at hb
            rcases hb with rfl | rfl | rfl <;> rfl
          · split at hb
            · simp at hb
              rcases hb with rfl | rfl | rfl | rfl <;> rfl
            · simp at hb
              rcases hb with rfl | rfl | rfl <;> rfl
        · simp at hb
      · exact ih t1 ht1 e ht


theorem pin_effect_not_xTaskCreate (e : Effect) (h : e.is_pin_effect = true) :
    e.is_xTaskCreate = false := by
  cases e <;> simp_all [Effect.is_pin_effect, Effect.is_xTaskCreate]

theorem configure_pins_pin_effects (sdk : Sdk) (usb : usb_hal_context_t) (t : List Effect)
    (h : configure_pins sdk usb = some t) : ∀ e ∈ t, e.is_pin_effect = true := by
  simp only [configure_pins, Option.map_eq_some'] at h
  obtain ⟨t1, ht1, rfl⟩ := h
  intro e he
  rcases List.mem_append.1 he with h1 | h2
  · exact configure_pins_loop_pin_effects sdk usb _ t1 ht1 e h1
  · split at h2
    · simp at h2
      rcases h2 with rfl | rfl <;> rfl
    · simp at h2

theorem configure_pins_returns (sdk : Sdk) (usb : usb_hal_context_t)
    (h : has_sentinel sdk.usb_periph_iopins) : ∃ t, configure_pins sdk usb = some t := by
  simp [configure_pins, configure_pins_loop_eq sdk usb _ h]

/-- The whole trace of `TinyUSB_Port_InitDevice` when the pin table is terminated. -/
theorem initDevice_trace (sdk : Sdk) (hw : Hw) (s : PortState) (rhport : Nat)
    (h : has_sentinel sdk.usb_periph_iopins) :
    ∃ cp, configure_pins sdk (sdk.usb_hal_init { use_external_phy := false }) = some cp ∧
      (∀ e ∈ cp, e.is_pin_effect = true) ∧
      TinyUSB_Port_InitDevice sdk hw s rhport = some (s,
        [Effect.REG_CLR_BIT Reg.RTC_CNTL_USB_CONF_REG RegBits.RTC_CNTL_IO_MUX_RESET_DISABLE,
         Effect.REG_CLR_BIT Reg.RTC_CNTL_USB_CONF_REG RegBits.RTC_CNTL_USB_RESET_DISABLE] ++
        (if hw.USB_WRAP_date_val = sdk.USBDC_PERSIST_ENA ∧ s.usb_persist_enabled = true then []
         else [Effect.periph_module_reset periph_module_t.PERIPH_USB_MODULE,
               Effect.periph_module_enable periph_module_t.PERIPH_USB_MODULE]) ++
        [Effect.esp_register_shutdown_handler FnPtr.usb_persist_shutdown_handler,
         Effect.usb_hal_init false] ++ cp ++
        [Effect.tusb_init,
         Effect.xTaskCreate FnPtr.usb_device_task "usbd" 4096 (sdk.configMAX_PRIORITIES - 1)]) := by
  obtain ⟨cp, hcp⟩ := configure_pins_returns sdk (sdk.usb_hal_init { use_external_phy := false }) h
  refine ⟨cp, hcp, configure_pins_pin_effects sdk _ cp hcp, ?_⟩
  simp only [TinyUSB_Port_InitDevice, hcp, USBD_STACK_SZ]
  by_cases hd : hw.USB_WRAP_date_val = sdk.USBDC_PERSIST_ENA <;>
    cases he : s.usb_persist_enabled <;> simp [hd]

theorem initDevice_state (sdk : Sdk) (hw : Hw) (s s1 : PortState) (rhport : Nat)
    (t : List Effect) (h : TinyUSB_Port_InitDevice sdk hw s rhport = some (s1, t)) : s1 = s := by
  unfold TinyUSB_Port_InitDevice at h
  simp only at h
  split at h
  · simp at h
  · simp only [Option.some.injEq, Prod.mk.injEq] at h
    exact h.1.symm

theorem takeWhile_until_sentinel (pre post : List usb_iopin_dsc_t) (d : usb_iopin_dsc_t)
    (hpre : ∀ x ∈ pre, x.pin ≠ -1) (hd : d.pin = -1) :
    (pre ++ d :: post).takeWhile (fun x => decide (x.pin ≠ -1)) = pre := by
  induction pre with
  | nil => simp [List.takeWhile, hd]
  | cons x rest ih =>
    have hx : x.pin ≠ -1 := hpre x (List.mem_cons_self _ _)
    have hrest : ∀ y ∈ rest, y.pin ≠ -1 := fun y hy => hpre y (List.mem_cons_of_mem _ hy)
    rw [List.cons_append, List.takeWhile_cons_of_pos (by simpa using hx), ih hrest]

theorem spec_pin_setup_no_drive (sdk : Sdk) (l : List usb_iopin_dsc_t) (g : Int)
    (c : gpio_drive_cap_t) :
    Effect.gpio_set_drive_capability g c ∉ l.flatMap (spec_pin_setup sdk) := by
  intro hmem
  rw [List.mem_flatMap] at hmem
  obtain ⟨d, _, hd⟩ := hmem
  unfold spec_pin_setup at hd
  split at hd <;> split at hd <;> simp at hd

theorem reachable_invariant (sdk : Sdk) (s : PortState) (hr : Reachable sdk s) :
    s.usb_persist_enabled = false ∧
    (s.usb_persist_mode = restart_type_t.RESTART_NO_PERSIST ∨
     s.usb_persist_mode = restart_type_t.RESTART_BOOTLOADER) := by
  induction hr with
  | initial => exact ⟨rfl, Or.inl rfl⟩
  | next op _ hstep ih =>
    cases op with
    | InitDevice hw rhport =>
      simp only [step, Option.map_eq_some'] at hstep
      obtain ⟨⟨s2, t⟩, hi, rfl⟩ := hstep
      rw [initDevice_state sdk hw _ s2 rhport t hi]
      exact ih
    | EnterDFU =>
      simp only [step, TinyUSB_Port_EnterDFU, Option.some.injEq] at hstep
      subst hstep
      exact ⟨ih.1, Or.inr rfl⟩
    | GetSerialNumber e0 e1 buf =>
      simp only [step, Option.some.injEq] at hstep
      subst hstep
      exact ih
    | yield =>
      simp only [step, yield, Option.some.injEq] at hstep
      subst hstep
      exact ih
    | shutdown_handler =>
      simp only [step, Option.some.injEq] at hstep
      subst hstep
      exact ih

/-! ## The claims -/

/-- C1: for a 32-bit value `mac0` of the `EFUSE_MAC_0` field, a 16-bit value `mac1` of the
`EFUSE_MAC_1` field and any initial 16-byte buffer, after `TinyUSB_Port_GetSerialNumber`
the buffer still has 16 bytes and its first six are `mac1 >> 8`, `mac1 & 0xFF`,
`(mac0 >> 24) & 0xFF`, `(mac0 >> 16) & 0xFF`, `(mac0 >> 8) & 0xFF`, `mac0 & 0xFF`; read
big-endian they are the 48-bit number `mac1:mac0`; and a different MAC (with any initial
buffer) gives a different six-byte serial. -/
theorem C1_serial_is_big_endian_mac (mac0 mac1 : Nat) (buf : List Nat)
    (h0 : mac0 < 2 ^ 32) (h1 : mac1 < 2 ^ 16) (hb : buf.length = 16) :
    (TinyUSB_Port_GetSerialNumber mac0 mac1 buf).1.length = 16 ∧
    (TinyUSB_Port_GetSerialNumber mac0 mac1 buf).1.take 6 =
      [mac1 >>> 8, mac1 &&& 0xFF, (mac0 >>> 24) &&& 0xFF, (mac0 >>> 16) &&& 0xFF,
       (mac0 >>> 8) &&& 0xFF, mac0 &&& 0xFF] ∧
    be_value ((TinyUSB_Port_GetSerialNumber mac0 mac1 buf).1.take 6) = mac1 * 2 ^ 32 + mac0 ∧
    (∀ (mac0' mac1' : Nat) (buf' : List Nat),
      mac0' < 2 ^ 32 → mac1' < 2 ^ 16 → buf'.length = 16 →
      (mac1', mac0') ≠ (mac1, mac0) →
      (TinyUSB_Port_GetSerialNumber mac0' mac1' buf').1.take 6 ≠
        (TinyUSB_Port_GetSerialNumber mac0 mac1 buf).1.take 6) := by
  have hand : ∀ x : Nat, x &&& 0xFF = x % 256 := fun x => Nat.and_pow_two_sub_one_eq_mod x 8
  have hhi : mac1 / 2 ^ 8 % 256 = mac1 / 2 ^ 8 := by
    norm_num at h1 ⊢
    omega
  refine ⟨?_, ?_, be_value_serial mac0 mac1 buf h0 h1 hb, ?_⟩
  · rw [serial_buffer mac0 mac1 buf hb]
    simp [hb]
  · rw [serial_first_six mac0 mac1 buf h0 h1 hb]
    simp only [Nat.shiftRight_eq_div_pow, hand, hhi]
  · intro mac0' mac1' buf' h0' h1' hb' hne heq
    have hv := congrArg be_value heq
    rw [be_value_serial mac0 mac1 buf h0 h1 hb, be_value_serial mac0' mac1' buf' h0' h1' hb'] at hv
    apply hne
    norm_num at h0 h1 h0' h1' hv
    rw [Prod.mk.injEq]
    constructor <;> omega

/-- C1 at the MAC `11:22:AA:BB:CC:DD` and a buffer of sixteen `7`s. -/
theorem C1_serial_is_big_endian_mac_witness :
    (0xAABBCCDD < 2 ^ 32 ∧ 0x1122 < 2 ^ 16 ∧ (List.replicate 16 7).length = 16) ∧
    (TinyUSB_Port_GetSerialNumber 0xAABBCCDD 0x1122 (List.replicate 16 7)).1.take 6 =
      [0x1122 >>> 8, 0x1122 &&& 0xFF, (0xAABBCCDD >>> 24) &&& 0xFF,
       (0xAABBCCDD >>> 16) &&& 0xFF, (0xAABBCCDD >>> 8) &&& 0xFF, 0xAABBCCDD &&& 0xFF] :=
  ⟨⟨by norm_num, by norm_num, by simp⟩,
   (C1_serial_is_big_endian_mac 0xAABBCCDD 0x1122 (List.replicate 16 7)
      (by norm_num) (by norm_num) (by simp)).2.1⟩

/-- C8: `TinyUSB_Port_GetSerialNumber` returns 6 whatever the registers and the buffer
hold, and 6 is at most 16.  On a 16-byte buffer the call keeps the length, and the
returned length is exactly the filled prefix: the first `6` (the returned value) bytes of
the buffer are the six bytes computed from the two eFuse fields, whatever the buffer held
before (so each of the positions 0 to 5 is overwritten), and bytes 6 to 15 are as they
were. -/
theorem C8_serial_returns_6_and_keeps_tail (e0 e1 : Nat) (buf : List Nat)
    (hb : buf.length = 16) :
    (∀ (x0 x1 : Nat) (b : List Nat), (TinyUSB_Port_GetSerialNumber x0 x1 b).2 = 6) ∧
    (TinyUSB_Port_GetSerialNumber e0 e1 buf).2 ≤ 16 ∧
    (TinyUSB_Port_GetSerialNumber e0 e1 buf).1.length = 16 ∧
    (∀ i : Nat, 6 ≤ i → i < 16 →
      (TinyUSB_Port_GetSerialNumber e0 e1 buf).1[i]? = buf[i]?) ∧
    (TinyUSB_Port_GetSerialNumber e0 e1 buf).1.take (TinyUSB_Port_GetSerialNumber e0 e1 buf).2 =
      [(e1 % 2 ^ 16) / 2 ^ 8 % 256, (e1 % 2 ^ 16) % 256,
       (e0 % 2 ^ 32) / 2 ^ 24 % 256, (e0 % 2 ^ 32) / 2 ^ 16 % 256,
       (e0 % 2 ^ 32) / 2 ^ 8 % 256, (e0 % 2 ^ 32) % 256] ∧
    (TinyUSB_Port_GetSerialNumber e0 e1 buf).1.drop (TinyUSB_Port_GetSerialNumber e0 e1 buf).2 =
      buf.drop (TinyUSB_Port_GetSerialNumber e0 e1 buf).2 ∧
    (∀ (i : Nat) (old : List Nat), i < 6 → old.length = 16 →
      (TinyUSB_Port_GetSerialNumber e0 e1 old).1[i]? =
        (TinyUSB_Port_GetSerialNumber e0 e1 buf).1[i]?) := by
  have hret : ∀ (x0 x1 : Nat) (b : List Nat), (TinyUSB_Port_GetSerialNumber x0 x1 b).2 = 6 :=
    fun _ _ _ => rfl
  refine ⟨hret, by simp [TinyUSB_Port_GetSerialNumber], ?_, ?_, ?_, ?_, ?_⟩
  · rw [serial_buffer e0 e1 buf hb]
    simp [hb]
  · intro i h6 _
    rw [serial_buffer e0 e1 buf hb]
    obtain ⟨k, rfl⟩ := Nat.exists_eq_add_of_le h6
    rw [List.getElem?_append_right (by simp)]
    simp
  · rw [hret, serial_buffer e0 e1 buf hb]
    simp
  · rw [hret, serial_buffer e0 e1 buf hb]
    simp
  · intro i old hi hold
    rw [serial_buffer e0 e1 buf hb, serial_buffer e0 e1 old hold,
      List.getElem?_append_left (by simpa using hi),
      List.getElem?_append_left (by simpa using hi)]

/-- C8 at eFuse contents beyond the field widths and the buffer `0, 1, ..., 15`: the call
returns 6, the first six bytes are `0, 3, 0, 0, 0, 5`, byte 9 is still `9`. -/
theorem C8_serial_returns_6_and_keeps_tail_witness :
    (List.range 16).length = 16 ∧
    (TinyUSB_Port_GetSerialNumber (2 ^ 40 + 5) (2 ^ 20 + 3) (List.range 16)).2 = 6 ∧
    (TinyUSB_Port_GetSerialNumber (2 ^ 40 + 5) (2 ^ 20 + 3) (List.range 16)).1[9]? =
      (List.range 16)[9]? ∧
    (TinyUSB_Port_GetSerialNumber (2 ^ 40 + 5) (2 ^ 20 + 3) (List.range 16)).1.take
        (TinyUSB_Port_GetSerialNumber (2 ^ 40 + 5) (2 ^ 20 + 3) (List.range 16)).2 =
      [((2 ^ 20 + 3) % 2 ^ 16) / 2 ^ 8 % 256, ((2 ^ 20 + 3) % 2 ^ 16) % 256,
       ((2 ^ 40 + 5) % 2 ^ 32) / 2 ^ 24 % 256, ((2 ^ 40 + 5) % 2 ^ 32) / 2 ^ 16 % 256,
       ((2 ^ 40 + 5) % 2 ^ 32) / 2 ^ 8 % 256, ((2 ^ 40 + 5) % 2 ^ 32) % 256] ∧
    [((2 ^ 20 + 3) % 2 ^ 16) / 2 ^ 8 % 256, ((2 ^ 20 + 3) % 2 ^ 16) % 256,
       ((2 ^ 40 + 5) % 2 ^ 32) / 2 ^ 24 % 256, ((2 ^ 40 + 5) % 2 ^ 32) / 2 ^ 16 % 256,
       ((2 ^ 40 + 5) % 2 ^ 32) / 2 ^ 8 % 256, ((2 ^ 40 + 5) % 2 ^ 32) % 256] =
      [0, 3, 0, 0, 0, 5] :=
  ⟨by simp,
   (C8_serial_returns_6_and_keeps_tail (2 ^ 40 + 5) (2 ^ 20 + 3) (List.range 16)
      (by simp)).1 _ _ _,
   (C8_serial_returns_6_and_keeps_tail (2 ^ 40 + 5) (2 ^ 20 + 3) (List.range 16)
      (by simp)).2.2.2.1 9 (by norm_num) (by norm_num),
   (C8_serial_returns_6_and_keeps_tail (2 ^ 40 + 5) (2 ^ 20 + 3) (List.range 16)
      (by simp)).2.2.2.2.1,
   by norm_num⟩

/-- C2: from the initial state `TinyUSB_Port_EnterDFU` leaves
`usb_persist_mode = RESTART_BOOTLOADER`, its trace is the store to `usb_persist_mode`
followed by `esp_restart`, and the shutdown handler run in the resulting state resets and
re-enables the USB module and then writes `RTC_CNTL_FORCE_DOWNLOAD_BOOT` to
`RTC_CNTL_OPTION1_REG`; the mode, the trace and the register write are the same from any
other state. -/
theorem C2_EnterDFU_reboots_into_bootloader :
    (TinyUSB_Port_EnterDFU PortState.initial).1 =
      { usb_persist_enabled := false, usb_persist_mode := restart_type_t.RESTART_BOOTLOADER } ∧
    (TinyUSB_Port_EnterDFU PortState.initial).2 =
      [Effect.store_usb_persist_mode restart_type_t.RESTART_BOOTLOADER, Effect.esp_restart] ∧
    usb_persist_shutdown_handler (TinyUSB_Port_EnterDFU PortState.initial).1 =
      [Effect.periph_module_reset periph_module_t.PERIPH_USB_MODULE,
       Effect.periph_module_enable periph_module_t.PERIPH_USB_MODULE,
       Effect.REG_WRITE Reg.RTC_CNTL_OPTION1_REG RegBits.RTC_CNTL_FORCE_DOWNLOAD_BOOT] ∧
    (∀ s : PortState,
      (TinyUSB_Port_EnterDFU s).1.usb_persist_mode = restart_type_t.RESTART_BOOTLOADER ∧
      (TinyUSB_Port_EnterDFU s).2 =
        [Effect.store_usb_persist_mode restart_type_t.RESTART_BOOTLOADER, Effect.esp_restart] ∧
      Effect.REG_WRITE Reg.RTC_CNTL_OPTION1_REG RegBits.RTC_CNTL_FORCE_DOWNLOAD_BOOT ∈
        usb_persist_shutdown_handler (TinyUSB_Port_EnterDFU s).1) := by
  refine ⟨rfl, rfl, by simp [usb_persist_shutdown_handler, TinyUSB_Port_EnterDFU,
    PortState.initial], ?_⟩
  intro s
  refine ⟨rfl, rfl, ?_⟩
  cases he : s.usb_persist_enabled <;>
    simp [usb_persist_shutdown_handler, TinyUSB_Port_EnterDFU, he]

/-- C3, refuted as stated: after `TinyUSB_Port_InitDevice` (sample vendor data, the USB
wrapper reporting a persistent reboot, `rhport` 0) and `TinyUSB_Port_EnterDFU`, the
shutdown handler performs exactly a reset and re-enable of the USB module and the
download-boot write: it resets the module and calls `chip_usb_set_persist_flags` with no
flag at all. -/
theorem C3_counterexample :
    ∃ s1 t1, TinyUSB_Port_InitDevice sampleSdk { USB_WRAP_date_val := 2 ^ 31 }
        PortState.initial 0 = some (s1, t1) ∧
      usb_persist_shutdown_handler (TinyUSB_Port_EnterDFU s1).1 =
        [Effect.periph_module_reset periph_module_t.PERIPH_USB_MODULE,
         Effect.periph_module_enable periph_module_t.PERIPH_USB_MODULE,
         Effect.REG_WRITE Reg.RTC_CNTL_OPTION1_REG RegBits.RTC_CNTL_FORCE_DOWNLOAD_BOOT] ∧
      Effect.periph_module_reset periph_module_t.PERIPH_USB_MODULE ∈
        usb_persist_shutdown_handler (TinyUSB_Port_EnterDFU s1).1 ∧
      ∀ f, Effect.chip_usb_set_persist_flags f ∉
        usb_persist_shutdown_handler (TinyUSB_Port_EnterDFU s1).1 := by
  obtain ⟨cp, _, _, h⟩ := initDevice_trace sampleSdk { USB_WRAP_date_val := 2 ^ 31 }
    PortState.initial 0 (by decide)
  refine ⟨_, _, h, ?_, ?_, ?_⟩ <;>
    simp [usb_persist_shutdown_handler, TinyUSB_Port_EnterDFU, PortState.initial]

/-- C3, amended: in the state reached from the initial state by
`TinyUSB_Port_InitDevice` followed by `TinyUSB_Port_EnterDFU`, `usb_persist_enabled` is
false and the shutdown handler performs exactly: reset of the USB module, enable of the
USB module, write of `RTC_CNTL_FORCE_DOWNLOAD_BOOT` to `RTC_CNTL_OPTION1_REG`; so it
calls neither `usb_dc_prepare_persist` nor `chip_usb_set_persist_flags`. -/
theorem C3_handler_after_init_and_dfu (sdk : Sdk) (hw : Hw) (rhport : Nat)
    (h : has_sentinel sdk.usb_periph_iopins) :
    ∃ s1 t1, TinyUSB_Port_InitDevice sdk hw PortState.initial rhport = some (s1, t1) ∧
      (TinyUSB_Port_EnterDFU s1).1.usb_persist_enabled = false ∧
      usb_persist_shutdown_handler (TinyUSB_Port_EnterDFU s1).1 =
        [Effect.periph_module_reset periph_module_t.PERIPH_USB_MODULE,
         Effect.periph_module_enable periph_module_t.PERIPH_USB_MODULE,
         Effect.REG_WRITE Reg.RTC_CNTL_OPTION1_REG RegBits.RTC_CNTL_FORCE_DOWNLOAD_BOOT] ∧
      Effect.usb_dc_prepare_persist ∉
        usb_persist_shutdown_handler (TinyUSB_Port_EnterDFU s1).1 ∧
      ∀ f, Effect.chip_usb_set_persist_flags f ∉
        usb_persist_shutdown_handler (TinyUSB_Port_EnterDFU s1).1 := by
  obtain ⟨cp, _, _, hi⟩ := initDevice_trace sdk hw PortState.initial rhport h
  refine ⟨_, _, hi, rfl, ?_, ?_, ?_⟩ <;>
    simp [usb_persist_shutdown_handler, TinyUSB_Port_EnterDFU, PortState.initial]

/-- C3 (amended) on the sample vendor data with cleared USB wrapper date register. -/
theorem C3_handler_after_init_and_dfu_witness :
    has_sentinel sampleSdk.usb_periph_iopins ∧
    ∃ s1 t1, TinyUSB_Port_InitDevice sampleSdk { USB_WRAP_date_val := 0 }
        PortState.initial 1 = some (s1, t1) ∧
      usb_persist_shutdown_handler (TinyUSB_Port_EnterDFU s1).1 =
        [Effect.periph_module_reset periph_module_t.PERIPH_USB_MODULE,
         Effect.periph_module_enable periph_module_t.PERIPH_USB_MODULE,
         Effect.REG_WRITE Reg.RTC_CNTL_OPTION1_REG RegBits.RTC_CNTL_FORCE_DOWNLOAD_BOOT] :=
  ⟨by decide,
   (C3_handler_after_init_and_dfu sampleSdk { USB_WRAP_date_val := 0 } 1 (by decide)).imp
    fun _ h1 => h1.imp fun _ h2 => ⟨h2.1, h2.2.2.1⟩⟩

/-- C4: for every value of `usb_persist_mode` (the four restart kinds and
`RESTART_TYPE_MAX`) and of `usb_persist_enabled`, the shutdown handler writes
`RTC_CNTL_FORCE_DOWNLOAD_BOOT` to `RTC_CNTL_OPTION1_REG` exactly when the mode is
`RESTART_BOOTLOADER` or `RESTART_BOOTLOADER_DFU`, and calls
`chip_usb_set_persist_flags(USBDC_BOOT_DFU)` exactly when the mode is
`RESTART_BOOTLOADER_DFU`. -/
theorem C4_handler_selects_reboot_mode (enabled : Bool) (mode : restart_type_t) :
    (Effect.REG_WRITE Reg.RTC_CNTL_OPTION1_REG RegBits.RTC_CNTL_FORCE_DOWNLOAD_BOOT ∈
        usb_persist_shutdown_handler
          { usb_persist_enabled := enabled, usb_persist_mode := mode } ↔
      mode = restart_type_t.RESTART_BOOTLOADER ∨
      mode = restart_type_t.RESTART_BOOTLOADER_DFU) ∧
    (Effect.chip_usb_set_persist_flags usbdc_flag.USBDC_BOOT_DFU ∈
        usb_persist_shutdown_handler
          { usb_persist_enabled := enabled, usb_persist_mode := mode } ↔
      mode = restart_type_t.RESTART_BOOTLOADER_DFU) := by
  cases enabled <;> cases mode <;> simp [usb_persist_shutdown_handler]


/-- C5: for every `rhport`, hardware state and state of the static variables (the pin
table being terminated), `TinyUSB_Port_InitDevice` returns, and its trace is some prefix,
then `usb_hal_init`, then the effects of `configure_pins`, then `tusb_init`, then
`xTaskCreate(usb_device_task, "usbd", 4096, NULL, configMAX_PRIORITIES - 1, NULL)` as the
last effect; nothing before that last effect is an `xTaskCreate`, so the trace holds
exactly one; `tusb_init` does not occur earlier and `usb_hal_init` is not in the prefix;
and the result is the same for every other `rhport`. -/
theorem C5_InitDevice_spawns_task_once (sdk : Sdk) (hw : Hw) (s : PortState) (rhport : Nat)
    (h : has_sentinel sdk.usb_periph_iopins) :
    ∃ pre cp,
      configure_pins sdk (sdk.usb_hal_init { use_external_phy := false }) = some cp ∧
      TinyUSB_Port_InitDevice sdk hw s rhport = some (s,
        pre ++ [Effect.usb_hal_init false] ++ cp ++
        [Effect.tusb_init,
         Effect.xTaskCreate FnPtr.usb_device_task "usbd" 4096 (sdk.configMAX_PRIORITIES - 1)]) ∧
      (pre ++ [Effect.usb_hal_init false] ++ cp ++ [Effect.tusb_init]).countP
        Effect.is_xTaskCreate = 0 ∧
      (pre ++ [Effect.usb_hal_init false] ++ cp ++
        [Effect.tusb_init,
         Effect.xTaskCreate FnPtr.usb_device_task "usbd" 4096
           (sdk.configMAX_PRIORITIES - 1)]).countP Effect.is_xTaskCreate = 1 ∧
      Effect.tusb_init ∉ pre ++ [Effect.usb_hal_init false] ++ cp ∧
      Effect.usb_hal_init false ∉ pre ∧
      ∀ rhport1 : Nat,
        TinyUSB_Port_InitDevice sdk hw s rhport1 = TinyUSB_Port_InitDevice sdk hw s rhport := by
  obtain ⟨cp, hcp, hpin, hi⟩ := initDevice_trace sdk hw s rhport h
  have hcount : cp.countP Effect.is_xTaskCreate = 0 := by
    rw [List.countP_eq_zero]
    intro e he
    simp [pin_effect_not_xTaskCreate e (hpin e he)]
  have htusb : Effect.tusb_init ∉ cp := fun hmem => by
    have := hpin _ hmem
    simp [Effect.is_pin_effect] at this
  refine ⟨[Effect.REG_CLR_BIT Reg.RTC_CNTL_USB_CONF_REG RegBits.RTC_CNTL_IO_MUX_RESET_DISABLE,
      Effect.REG_CLR_BIT Reg.RTC_CNTL_USB_CONF_REG RegBits.RTC_CNTL_USB_RESET_DISABLE] ++
    (if hw.USB_WRAP_date_val = sdk.USBDC_PERSIST_ENA ∧ s.usb_persist_enabled = true then []
     else [Effect.periph_module_reset periph_module_t.PERIPH_USB_MODULE,
           Effect.periph_module_enable periph_module_t.PERIPH_USB_MODULE]) ++
    [Effect.esp_register_shutdown_handler FnPtr.usb_persist_shutdown_handler],
    cp, hcp, ?_, ?_, ?_, ?_, ?_, fun _ => rfl⟩
  · rw [hi]
    simp
  · by_cases hd : hw.USB_WRAP_date_val = sdk.USBDC_PERSIST_ENA ∧ s.usb_persist_enabled = true <;>
      simp [hd, List.countP_append, List.countP_cons, hcount, Effect.is_xTaskCreate]
  · by_cases hd : hw.USB_WRAP_date_val = sdk.USBDC_PERSIST_ENA ∧ s.usb_persist_enabled = true <;>
      simp [hd, List.countP_append, List.countP_cons, hcount, Effect.is_xTaskCreate]
  · by_cases hd : hw.USB_WRAP_date_val = sdk.USBDC_PERSIST_ENA ∧ s.usb_persist_enabled = true <;>
      simp [hd, htusb]
  · by_cases hd : hw.USB_WRAP_date_val = sdk.USBDC_PERSIST_ENA ∧ s.usb_persist_enabled = true <;>
      simp [hd]

/-- C5 on the sample vendor data: the trace after `rhport` 3 holds one `xTaskCreate`, and
`rhport` 200 gives the same result. -/
theorem C5_InitDevice_spawns_task_once_witness :
    has_sentinel sampleSdk.usb_periph_iopins ∧
    ∃ pre cp,
      TinyUSB_Port_InitDevice sampleSdk { USB_WRAP_date_val := 0 } PortState.initial 3 =
        some (PortState.initial,
          pre ++ [Effect.usb_hal_init false] ++ cp ++
          [Effect.tusb_init, Effect.xTaskCreate FnPtr.usb_device_task "usbd" 4096 (25 - 1)]) ∧
      (pre ++ [Effect.usb_hal_init false] ++ cp ++ [Effect.tusb_init]).countP
        Effect.is_xTaskCreate = 0 ∧
      TinyUSB_Port_InitDevice sampleSdk { USB_WRAP_date_val := 0 } PortState.initial 200 =
        TinyUSB_Port_InitDevice sampleSdk { USB_WRAP_date_val := 0 } PortState.initial 3 :=
  ⟨by decide,
   (C5_InitDevice_spawns_task_once sampleSdk { USB_WRAP_date_val := 0 } PortState.initial 3
      (by decide)).imp
    fun _ h1 => h1.imp fun _ h2 => ⟨h2.2.1, h2.2.2.1, h2.2.2.2.2.2.2 200⟩⟩

/-- C6: for every hardware state and every value of the static variables (the pin table
being terminated), the trace of `TinyUSB_Port_InitDevice` starts with the two
`REG_CLR_BIT`s on `RTC_CNTL_USB_CONF_REG` (`RTC_CNTL_IO_MUX_RESET_DISABLE`, then
`RTC_CNTL_USB_RESET_DISABLE`); next come `periph_module_reset` and `periph_module_enable`
on `PERIPH_USB_MODULE` unless both `USB_WRAP.date.val == USBDC_PERSIST_ENA` and
`usb_persist_enabled` hold, in which case nothing comes; next the registration of the
shutdown handler and `usb_hal_init`; the rest of the trace has no reset or enable of the
module, so the trace has them if and only if not both conditions hold. -/
theorem C6_InitDevice_reset_unless_persisted (sdk : Sdk) (hw : Hw) (s : PortState)
    (rhport : Nat) (h : has_sentinel sdk.usb_periph_iopins) :
    ∃ t rest,
      TinyUSB_Port_InitDevice sdk hw s rhport = some (s, t) ∧
      t = [Effect.REG_CLR_BIT Reg.RTC_CNTL_USB_CONF_REG RegBits.RTC_CNTL_IO_MUX_RESET_DISABLE,
           Effect.REG_CLR_BIT Reg.RTC_CNTL_USB_CONF_REG RegBits.RTC_CNTL_USB_RESET_DISABLE] ++
          (if hw.USB_WRAP_date_val = sdk.USBDC_PERSIST_ENA ∧ s.usb_persist_enabled = true
           then []
           else [Effect.periph_module_reset periph_module_t.PERIPH_USB_MODULE,
                 Effect.periph_module_enable periph_module_t.PERIPH_USB_MODULE]) ++
          [Effect.esp_register_shutdown_handler FnPtr.usb_persist_shutdown_handler,
           Effect.usb_hal_init false] ++ rest ∧
      Effect.periph_module_reset periph_module_t.PERIPH_USB_MODULE ∉ rest ∧
      Effect.periph_module_enable periph_module_t.PERIPH_USB_MODULE ∉ rest ∧
      (Effect.periph_module_reset periph_module_t.PERIPH_USB_MODULE ∈ t ↔
        ¬ (hw.USB_WRAP_date_val = sdk.USBDC_PERSIST_ENA ∧ s.usb_persist_enabled = true)) ∧
      (Effect.periph_module_enable periph_module_t.PERIPH_USB_MODULE ∈ t ↔
        ¬ (hw.USB_WRAP_date_val = sdk.USBDC_PERSIST_ENA ∧ s.usb_persist_enabled = true)) := by
  obtain ⟨cp, hcp, hpin, hi⟩ := initDevice_trace sdk hw s rhport h
  have hreset : Effect.periph_module_reset periph_module_t.PERIPH_USB_MODULE ∉ cp :=
    fun hmem => by
      have := hpin _ hmem
      simp [Effect.is_pin_effect] at this
  have henable : Effect.periph_module_enable periph_module_t.PERIPH_USB_MODULE ∉ cp :=
    fun hmem => by
      have := hpin _ hmem
      simp [Effect.is_pin_effect] at this
  refine ⟨_, cp ++ [Effect.tusb_init, Effect.xTaskCreate FnPtr.usb_device_task "usbd" 4096
    (sdk.configMAX_PRIORITIES - 1)], hi, ?_, ?_, ?_, ?_, ?_⟩
  · simp
  · simp [hreset]
  · simp [henable]
  · by_cases hd : hw.USB_WRAP_date_val = sdk.USBDC_PERSIST_ENA ∧ s.usb_persist_enabled = true <;>
      simp [hd, hreset]
  · by_cases hd : hw.USB_WRAP_date_val = sdk.USBDC_PERSIST_ENA ∧ s.usb_persist_enabled = true <;>
      simp [hd, henable]

/-- C6 where both conditions hold (persistence enabled and the wrapper reporting a
persistent reboot): the trace on the sample vendor data has no reset of the module. -/
theorem C6_InitDevice_reset_unless_persisted_witness :
    has_sentinel sampleSdk.usb_periph_iopins ∧
    ∃ t rest,
      TinyUSB_Port_InitDevice sampleSdk { USB_WRAP_date_val := 2 ^ 31 }
        { usb_persist_enabled := true, usb_persist_mode := restart_type_t.RESTART_PERSIST } 0 =
        some ({ usb_persist_enabled := true,
                usb_persist_mode := restart_type_t.RESTART_PERSIST }, t) ∧
      t = [Effect.REG_CLR_BIT Reg.RTC_CNTL_USB_CONF_REG RegBits.RTC_CNTL_IO_MUX_RESET_DISABLE,
           Effect.REG_CLR_BIT Reg.RTC_CNTL_USB_CONF_REG RegBits.RTC_CNTL_USB_RESET_DISABLE] ++
          [] ++
          [Effect.esp_register_shutdown_handler FnPtr.usb_persist_shutdown_handler,
           Effect.usb_hal_init false] ++ rest ∧
      Effect.periph_module_reset periph_module_t.PERIPH_USB_MODULE ∉ t :=
  ⟨by decide,
   (C6_InitDevice_reset_unless_persisted sampleSdk { USB_WRAP_date_val := 2 ^ 31 }
      { usb_persist_enabled := true, usb_persist_mode := restart_type_t.RESTART_PERSIST } 0
      (by decide)).imp
    fun _ h1 => h1.imp fun _ h2 =>
      ⟨h2.1, h2.2.1, fun hmem => h2.2.2.2.2.1.1 hmem ⟨rfl, rfl⟩⟩⟩


/-- C7: when the descriptor table holds an end marker (`pin == -1`), `configure_pins`
returns, and its effects are: for the records before the first end marker, in table
order, and only for those with `use_external_phy` set or `ext_phy_only == 0`, the pin
configuration (pad select, connect-out if `is_output` else connect-in, pad unhold);
then `gpio_set_drive_capability(.., GPIO_DRIVE_CAP_3)` on `USBPHY_DM_NUM` and
`USBPHY_DP_NUM` if `use_external_phy` is false and nothing otherwise.  Whatever is stored
behind the first end marker does not show in the result, and a
`gpio_set_drive_capability` occurs in the trace only as one of these two calls. -/
theorem C7_configure_pins_wires_eligible (sdk : Sdk) (usb : usb_hal_context_t)
    (h : has_sentinel sdk.usb_periph_iopins) :
    configure_pins sdk usb = some
      (((sdk.usb_periph_iopins.takeWhile (fun d => decide (d.pin ≠ -1))).filter
          (spec_eligible usb)).flatMap (spec_pin_setup sdk) ++
        (if usb.use_external_phy = false then
          [Effect.gpio_set_drive_capability sdk.USBPHY_DM_NUM gpio_drive_cap_t.GPIO_DRIVE_CAP_3,
           Effect.gpio_set_drive_capability sdk.USBPHY_DP_NUM gpio_drive_cap_t.GPIO_DRIVE_CAP_3]
         else [])) ∧
    (∀ (pre post : List usb_iopin_dsc_t) (d : usb_iopin_dsc_t),
      sdk.usb_periph_iopins = pre ++ d :: post → (∀ x ∈ pre, x.pin ≠ -1) → d.pin = -1 →
      configure_pins sdk usb = some
        ((pre.filter (spec_eligible usb)).flatMap (spec_pin_setup sdk) ++
          (if usb.use_external_phy = false then
            [Effect.gpio_set_drive_capability sdk.USBPHY_DM_NUM
               gpio_drive_cap_t.GPIO_DRIVE_CAP_3,
             Effect.gpio_set_drive_capability sdk.USBPHY_DP_NUM
               gpio_drive_cap_t.GPIO_DRIVE_CAP_3]
           else []))) ∧
    (∀ t : List Effect, configure_pins sdk usb = some t →
      (usb.use_external_phy = false →
        Effect.gpio_set_drive_capability sdk.USBPHY_DM_NUM gpio_drive_cap_t.GPIO_DRIVE_CAP_3 ∈ t ∧
        Effect.gpio_set_drive_capability sdk.USBPHY_DP_NUM gpio_drive_cap_t.GPIO_DRIVE_CAP_3 ∈ t) ∧
      (∀ (g : Int) (c : gpio_drive_cap_t), Effect.gpio_set_drive_capability g c ∈ t →
        usb.use_external_phy = false ∧ (g = sdk.USBPHY_DM_NUM ∨ g = sdk.USBPHY_DP_NUM))) := by
  have main : configure_pins sdk usb = some
      (((sdk.usb_periph_iopins.takeWhile (fun d => decide (d.pin ≠ -1))).filter
          (spec_eligible usb)).flatMap (spec_pin_setup sdk) ++
        (if usb.use_external_phy = false then
          [Effect.gpio_set_drive_capability sdk.USBPHY_DM_NUM gpio_drive_cap_t.GPIO_DRIVE_CAP_3,
           Effect.gpio_set_drive_capability sdk.USBPHY_DP_NUM gpio_drive_cap_t.GPIO_DRIVE_CAP_3]
         else [])) := by
    simp only [configure_pins, configure_pins_loop_eq sdk usb _ h, flatMap_body_eq,
      Option.map_some']
    cases usb.use_external_phy <;> simp
  refine ⟨main, ?_, ?_⟩
  · intro pre post d htab hpre hd
    rw [main, htab, takeWhile_until_sentinel pre post d hpre hd]
  · intro t ht
    rw [main, Option.some.injEq] at ht
    subst ht
    constructor
    · intro hphy
      simp [hphy]
    · intro g c hmem
      rcases List.mem_append.1 hmem with h1 | h2
      · exact absurd h1 (spec_pin_setup_no_drive sdk _ g c)
      · cases hphy : usb.use_external_phy
        · simp [hphy] at h2
          exact ⟨rfl, h2⟩
        · simp [hphy] at h2

/-- C7 on the sample table with the internal PHY: the two external-PHY pins and the record
behind the end marker leave no trace; pins 56, 5 and 6 are configured in this order. -/
theorem C7_configure_pins_wires_eligible_witness :
    has_sentinel sampleSdk.usb_periph_iopins ∧
    configure_pins sampleSdk { use_external_phy := false } = some
      (((sampleSdk.usb_periph_iopins.takeWhile (fun d => decide (d.pin ≠ -1))).filter
          (spec_eligible { use_external_phy := false })).flatMap (spec_pin_setup sampleSdk) ++
        [Effect.gpio_set_drive_capability 19 gpio_drive_cap_t.GPIO_DRIVE_CAP_3,
         Effect.gpio_set_drive_capability 20 gpio_drive_cap_t.GPIO_DRIVE_CAP_3]) :=
  ⟨by decide,
   (C7_configure_pins_wires_eligible sampleSdk { use_external_phy := false } (by decide)).1⟩

/-- C9: every state reachable from `(RESTART_NO_PERSIST, false)` by
`TinyUSB_Port_InitDevice`, `TinyUSB_Port_EnterDFU`, `TinyUSB_Port_GetSerialNumber`,
`yield` and the shutdown handler has `usb_persist_enabled = false` and
`usb_persist_mode` equal to `RESTART_NO_PERSIST` or `RESTART_BOOTLOADER`; in such a state
the shutdown handler calls neither `usb_dc_prepare_persist` nor
`chip_usb_set_persist_flags`, and `TinyUSB_Port_InitDevice` (the pin table being
terminated) returns with a trace that resets and enables the USB peripheral module, for
every hardware state and `rhport`. -/
theorem C9_reachable_states_never_persist (sdk : Sdk) (s : PortState)
    (hs : has_sentinel sdk.usb_periph_iopins) (hr : Reachable sdk s) :
    s.usb_persist_enabled = false ∧
    (s.usb_persist_mode = restart_type_t.RESTART_NO_PERSIST ∨
     s.usb_persist_mode = restart_type_t.RESTART_BOOTLOADER) ∧
    Effect.usb_dc_prepare_persist ∉ usb_persist_shutdown_handler s ∧
    (∀ f, Effect.chip_usb_set_persist_flags f ∉ usb_persist_shutdown_handler s) ∧
    (∀ (hw : Hw) (rhport : Nat), ∃ t,
      TinyUSB_Port_InitDevice sdk hw s rhport = some (s, t) ∧
      Effect.periph_module_reset periph_module_t.PERIPH_USB_MODULE ∈ t ∧
      Effect.periph_module_enable periph_module_t.PERIPH_USB_MODULE ∈ t) := by
  obtain ⟨hen, hmode⟩ := reachable_invariant sdk s hr
  refine ⟨hen, hmode, ?_, ?_, ?_⟩
  · rcases hmode with hm | hm <;> simp [usb_persist_shutdown_handler, hen, hm]
  · intro f
    rcases hmode with hm | hm <;> simp [usb_persist_shutdown_handler, hen, hm]
  · intro hw rhport
    obtain ⟨cp, _, _, hi⟩ := initDevice_trace sdk hw s rhport hs
    refine ⟨_, hi, ?_, ?_⟩ <;> simp [hen]

/-- C9 at the state reached by `TinyUSB_Port_InitDevice`, `TinyUSB_Port_EnterDFU` and the
shutdown handler on the sample vendor data. -/
theorem C9_reachable_states_never_persist_witness :
    (has_sentinel sampleSdk.usb_periph_iopins ∧
     Reachable sampleSdk
       { usb_persist_enabled := false, usb_persist_mode := restart_type_t.RESTART_BOOTLOADER }) ∧
    (∀ f, Effect.chip_usb_set_persist_flags f ∉ usb_persist_shutdown_handler
       { usb_persist_enabled := false, usb_persist_mode := restart_type_t.RESTART_BOOTLOADER }) :=
  have h1 : Reachable sampleSdk PortState.initial :=
    Reachable.next (Op.InitDevice { USB_WRAP_date_val := 0 } 0) Reachable.initial (by
      obtain ⟨cp, _, _, hi⟩ := initDevice_trace sampleSdk { USB_WRAP_date_val := 0 }
        PortState.initial 0 (by decide)
      simp [step, hi])
  have h2 : Reachable sampleSdk
      { usb_persist_enabled := false, usb_persist_mode := restart_type_t.RESTART_BOOTLOADER } :=
    Reachable.next Op.EnterDFU h1 rfl
  have hreach : Reachable sampleSdk
      { usb_persist_enabled := false, usb_persist_mode := restart_type_t.RESTART_BOOTLOADER } :=
    Reachable.next Op.shutdown_handler h2 rfl
  ⟨⟨by decide, hreach⟩,
   (C9_reachable_states_never_persist sampleSdk _ (by decide) hreach).2.2.2.1⟩

end TinyUSBEsp32
